import Mathlib

/-!
Verification of the oxdls OME-XML object model (omexml.py, types.py, utils.py).

The embedding models the ElementTree layer shallowly: an element is a tag
string, an ordered attribute list, optional text, and an ordered child list.
Attribute values keep Python's string/number distinction because several
setters write raw numbers where others write strings.  Methods that can raise
are modelled either with `Except` (the raised exception aborts and the partial
state is irrelevant to the caller) or with `PyRes` (the mutated state at the
point of the raise is observable, because the tree was updated in place).
-/

/-- Attribute values as stored by `node.set`: Python strings or numbers. -/
inductive AVal where
  | s : String → AVal
  | n : Int → AVal
deriving DecidableEq

/-- An ElementTree element: tag, ordered attributes, text, ordered children. -/
inductive Elem where
  | mk : String → List (String × AVal) → Option String → List Elem → Elem

def Elem.tag : Elem → String
  | .mk t _ _ _ => t

def Elem.attrs : Elem → List (String × AVal)
  | .mk _ a _ _ => a

def Elem.txt : Elem → Option String
  | .mk _ _ x _ => x

def Elem.children : Elem → List Elem
  | .mk _ _ _ c => c

/-- utils.qn: the qualified name, a brace-wrapped namespace then the tag. -/
def qn (ns tag : String) : String := "\x7b" ++ ns ++ "\x7d" ++ tag

/-- Python truthiness of an attribute value. -/
def truthy : AVal → Bool
  | .s t => !(t == "")
  | .n k => !(k == 0)

/-- Python truthiness of `node.get(...)`: None is falsy. -/
def truthyOpt : Option AVal → Bool
  | none => false
  | some a => truthy a

/-- Element.get: the attribute value, or None if absent. -/
def attrGet (e : Elem) (name : String) : Option AVal :=
  ((e.attrs).find? (fun p => p.1 == name)).map (·.2)

def attrsSet : List (String × AVal) → String → AVal → List (String × AVal)
  | [], name, v => [(name, v)]
  | p :: rest, name, v =>
      if p.1 == name then (name, v) :: rest else p :: attrsSet rest name v

/-- Element.set: replace the attribute in place, or append a new one. -/
def attrSet (e : Elem) (name : String) (v : AVal) : Elem :=
  .mk e.tag (attrsSet e.attrs name v) e.txt e.children

/-- Element.findall restricted to a child list: all children with this tag. -/
def findallL (tq : String) (cs : List Elem) : List Elem :=
  cs.filter (fun c => c.tag == tq)

/-- Element.find restricted to a child list: the first child with this tag. -/
def findL (tq : String) : List Elem → Option Elem
  | [] => none
  | c :: cs => if c.tag == tq then some c else findL tq cs

/-- ElementTree.SubElement: attach a new child at the end. -/
def appendChild (e : Elem) (c : Elem) : Elem :=
  .mk e.tag e.attrs e.txt (e.children ++ [c])

/-- Result of an in-place mutation: the tree state when the call returned or
raised, and the escaped exception if one did. -/
structure PyRes (α : Type) where
  val : α
  exc : Option String

theorem find_attrsSet_same (l : List (String × AVal)) (name : String) (v : AVal) :
    (attrsSet l name v).find? (fun p => p.1 == name) = some (name, v) := by
  induction l with
  | nil => simp [attrsSet, List.find?]
  | cons p rest ih =>
      by_cases h : p.1 == name
      · simp [attrsSet, h, List.find?]
      · simp [attrsSet, h, List.find?, ih]

theorem find_attrsSet_other (l : List (String × AVal)) (name m : String) (v : AVal)
    (h : (m == name) = false) :
    (attrsSet l name v).find? (fun p => p.1 == m) =
      l.find? (fun p => p.1 == m) := by
  induction l with
  | nil =>
      have hnm : (name == m) = false := by
        cases hq : name == m
        · rfl
        · exfalso
          have h2 : name = m := by simpa using hq
          rw [h2] at h
          simp at h
      simp [attrsSet, List.find?, hnm]
  | cons p rest ih =>
      by_cases hp : p.1 == name
      · have hpn : p.1 = name := by simpa using hp
        have hpm : (p.1 == m) = false := by
          cases hq : p.1 == m
          · rfl
          · exfalso
            have h2 : p.1 = m := by simpa using hq
            rw [hpn] at h2
            rw [h2] at h
            simp at h
        have hnm : (name == m) = false := by rw [← hpn]; exact hpm
        simp [attrsSet, hp, List.find?, hpm, hnm]
      · by_cases hq : p.1 == m
        · simp [attrsSet, hp, List.find?, hq]
        · simp [attrsSet, hp, List.find?, hq, ih]

theorem attrGet_attrSet_same (e : Elem) (name : String) (v : AVal) :
    attrGet (attrSet e name v) name = some v := by
  cases e with
  | mk t a x c =>
      unfold attrGet attrSet
      simp [Elem.attrs, find_attrsSet_same]

theorem attrGet_attrSet_other (e : Elem) (name m : String) (v : AVal)
    (h : (m == name) = false) :
    attrGet (attrSet e name v) m = attrGet e m := by
  cases e with
  | mk t a x c =>
      unfold attrGet attrSet
      simp [Elem.attrs, find_attrsSet_other a name m v h]

/-- Python str of an int, as written by setters that call str(value). -/
def pyStr (n : Int) : String := toString n

def isDigit (c : Char) : Bool := ('0' ≤ c) && (c ≤ '9')

def digitsVal : List Char → Nat → Option Nat
  | [], acc => some acc
  | c :: cs, acc =>
      if isDigit c then digitsVal cs (acc * 10 + (c.toNat - 48)) else none

/-- Python int(string) on the attribute strings this model produces:
an optional sign followed by one or more decimal digits. -/
def pyInt (t : String) : Option Int :=
  match t.data with
  | [] => none
  | c :: cs =>
      if c == '-' then
        match cs with
        | [] => none
        | _ => (digitsVal cs 0).map (fun m => -(m : Int))
      else (digitsVal (c :: cs) 0).map (fun m => (m : Int))

/-- utils.get_int_attr: absent attribute gives None; a non-numeric string
raises ValueError.  A numeric attribute value converts directly. -/
def get_int_attr (e : Elem) (name : String) : Except String (Option Int) :=
  match attrGet e name with
  | none => .ok none
  | some (.n k) => .ok (some k)
  | some (.s t) =>
      match pyInt t with
      | some k => .ok (some k)
      | none => .error "ValueError: invalid literal for int"

/-- The format operation applied by the number convention: a sign, then the
decimal digits zero-padded so the whole rendering is at least two wide. -/
def pct02d (n : Int) : String :=
  let r := toString n
  if r.length < 2 then "0" ++ r else r

def NC_LETTER : String := "letter"
def NC_NUMBER : String := "number"

/-- Python string indexing, with negative indices counted from the end and
an IndexError outside the range. -/
def py_str_index (l : List Char) (k : Int) : Except String Char :=
  let idx : Int := if k < 0 then k + l.length else k
  if idx < 0 then .error "IndexError: string index out of range"
  else
    match l.get? idx.toNat with
    | some c => .ok c
    | none => .error "IndexError: string index out of range"

/-- The letter alphabet indexed by the letter convention. -/
def rowAlphabet : List Char := "ABCDEFGHIJKLMNOP".data

/-- The effective convention: the stored attribute if truthy, else the
default (the `or` fallback in get_well_name). -/
def convOr (v : Option AVal) (dflt : String) : AVal :=
  match v with
  | some a => if truthy a then a else .s dflt
  | none => .s dflt

/-- One element of the comprehension in get_well_name: the number convention
formats index+1 two wide, anything else indexes the letter alphabet.  A
missing coordinate (None) raises TypeError in either branch. -/
def axis_part (conv : AVal) (i : Option Int) : Except String String :=
  if conv == .s NC_NUMBER then
    match i with
    | some k => .ok (pct02d (k + 1))
    | none => .error "TypeError: unsupported operand type"
  else
    match i with
    | some k => (py_str_index rowAlphabet k).map (fun c => String.mk [c])
    | none => .error "TypeError: string indices must be integers"

/-- Plate.get_well_name: read Row and Column, then join the row part under
the row convention (default letter) and the column part under the column
convention (default number). -/
def get_well_name (plate well : Elem) : Except String String := do
  let r ← get_int_attr well "Row"
  let c ← get_int_attr well "Column"
  let rp ← axis_part (convOr (attrGet plate "RowNamingConvention") NC_LETTER) r
  let cp ← axis_part (convOr (attrGet plate "ColumnNamingConvention") NC_NUMBER) c
  .ok (rp ++ cp)

/-- A Well element as Well.set_Row and Well.set_Column store it: both
coordinates written as decimal strings. -/
def mkWell (row col : Int) : Elem :=
  .mk "Well" [("Row", .s (pyStr row)), ("Column", .s (pyStr col))] none []

def isErr {α : Type} : Except String α → Bool
  | .error _ => true
  | .ok _ => false

/-- C4: on a plate whose row convention is letter and column convention is
number, get_well_name maps (0,0) to A01, (1,2) to B03, (15,0) to P01, and a
row index of 16 raises an IndexError instead of wrapping around. -/
theorem c4_well_name (plate : Elem)
    (hr : attrGet plate "RowNamingConvention" = some (.s NC_LETTER))
    (hc : attrGet plate "ColumnNamingConvention" = some (.s NC_NUMBER)) :
    get_well_name plate (mkWell 0 0) = .ok "A01" ∧
    get_well_name plate (mkWell 1 2) = .ok "B03" ∧
    get_well_name plate (mkWell 15 0) = .ok "P01" ∧
    isErr (get_well_name plate (mkWell 16 0)) = true := by
  unfold get_well_name
  rw [hr, hc]
  refine ⟨?_, ?_, ?_, ?_⟩ <;> rfl

/-- Witness for c4_well_name at a concrete plate element. -/
theorem c4_well_name_witness :
    get_well_name (Elem.mk "Plate"
        [("RowNamingConvention", .s "letter"),
         ("ColumnNamingConvention", .s "number")] none [])
      (mkWell 1 2) = .ok "B03" :=
  (c4_well_name (Elem.mk "Plate"
        [("RowNamingConvention", .s "letter"),
         ("ColumnNamingConvention", .s "number")] none [])
      (by rfl) (by rfl)).2.1

/-- Python raw-string word class used by the ID pattern: alphanumerics and
underscore, extended inside the bracket class with dash and dot. -/
def wordClass (c : Char) : Bool :=
  c.isAlphanum || c == '_' || c == '-' || c == '.'

/-- Python whitespace, the complement of the non-space class in the pattern. -/
def pySpace (c : Char) : Bool :=
  c == ' ' || c == '\t' || c == '\n' || c == '\r' || c == '\x0b' || c == '\x0c'

/-- Case-insensitive prefix test, the effect of the IGNORECASE flag on the
literal parts of the pattern under re.match. -/
def ciStartsWith : List Char → List Char → Bool
  | [], _ => true
  | _ :: _, [] => false
  | p :: ps, c :: cs => (p.toLower == c.toLower) && ciStartsWith ps cs

/-- The second alternative of the LSID pattern: the kind, a colon, and at
least one non-space character; re.match only needs this as a prefix. -/
def checkBare (kind s : List Char) : Bool :=
  ciStartsWith kind s &&
    (match s.drop kind.length with
     | c :: d :: _ => (c == ':') && !(pySpace d)
     | _ => false)

/-- The authority group of the urn alternative: one or more word-class
blocks each containing a dot with word-class characters on both sides,
which is exactly a word-class string with a dot in an interior position. -/
def authorityOk (a : List Char) : Bool :=
  a.all wordClass && ((a.drop 1).dropLast.contains '.')

/-- The first alternative of the LSID pattern: the literal urn:lsid: prefix,
the authority group up to the next colon, then the kind, a colon and a
non-space character.  The authority stops at the first character outside the
word class, which the pattern requires to be the colon. -/
def checkUrn (kind s : List Char) : Bool :=
  ciStartsWith "urn:lsid:".data s &&
    (let r := s.drop 9
     let a := r.takeWhile wordClass
     match r.drop a.length with
     | c :: u => (c == ':') && authorityOk a && checkBare kind u
     | [] => false)

/-- Types.LSID.check_ID: re.match of the pattern built by _create_pattern
for this entity kind, case-insensitive, anchored only at the start.  The
kind is interpolated into the pattern verbatim; the embedding treats it as
the literal word every entity passes (Image, Channel, Annotation, ...). -/
def check_ID (kind value : String) : Bool :=
  checkUrn kind.data value.data || checkBare kind.data value.data

/-- Types.LSID.set_ID: a failed check raises ValueError inside the method,
which is caught and logged, so the caller never sees an exception and the
stored ID is untouched; a passing check writes the attribute. -/
def set_ID (kind : String) (e : Elem) (value : String) : Elem × List String :=
  if check_ID kind value then (attrSet e "ID" (.s value), [])
  else (e, ["ERROR: ID must match pattern"])

/-- C3: for any entity kind and any candidate, a candidate rejected by the
kind pattern leaves the element (and so the stored ID) unchanged, emits a
diagnostic and raises nothing, while an accepted candidate is written. -/
theorem c3_set_id (kind : String) (e : Elem) (value : String) :
    (check_ID kind value = false →
        set_ID kind e value = (e, ["ERROR: ID must match pattern"]) ∧
        attrGet (set_ID kind e value).1 "ID" = attrGet e "ID") ∧
    (check_ID kind value = true →
        attrGet (set_ID kind e value).1 "ID" = some (.s value) ∧
        (set_ID kind e value).2 = []) := by
  constructor
  · intro h
    unfold set_ID
    rw [h]
    exact ⟨rfl, rfl⟩
  · intro h
    unfold set_ID
    rw [h]
    exact ⟨attrGet_attrSet_same e "ID" (.s value), rfl⟩

/-- Witness for c3_set_id: a malformed candidate is refused and the prior
ID survives; a well-formed bare candidate and a urn candidate are written. -/
theorem c3_set_id_witness :
    attrGet (set_ID "Image"
        (Elem.mk "Image" [("ID", .s "Image:0")] none []) "im 7").1 "ID"
      = some (.s "Image:0") ∧
    attrGet (set_ID "Image"
        (Elem.mk "Image" [("ID", .s "Image:0")] none []) "Image:1").1 "ID"
      = some (.s "Image:1") ∧
    attrGet (set_ID "Image"
        (Elem.mk "Image" [("ID", .s "Image:0")] none [])
        "urn:lsid:example.org:Image:77").1 "ID"
      = some (.s "urn:lsid:example.org:Image:77") := by
  refine ⟨?_, ?_, ?_⟩
  · exact ((c3_set_id "Image"
      (Elem.mk "Image" [("ID", .s "Image:0")] none []) "im 7").1
        (by rfl)).2.trans (by rfl)
  · exact ((c3_set_id "Image"
      (Elem.mk "Image" [("ID", .s "Image:0")] none []) "Image:1").2
        (by rfl)).1
  · exact ((c3_set_id "Image"
      (Elem.mk "Image" [("ID", .s "Image:0")] none [])
      "urn:lsid:example.org:Image:77").2 (by rfl)).1

mutual
/-- Document-order traversal of a subtree, the order node.iter produces. -/
def elemTags : Elem → List String
  | .mk t _ _ cs => t :: elemTagsL cs
/-- Traversal of a forest of subtrees in order. -/
def elemTagsL : List Elem → List String
  | [] => []
  | c :: cs => elemTags c ++ elemTagsL cs
end

def braceOpenC : Char := Char.ofNat 123
def braceCloseC : Char := Char.ofNat 125

/-- The characters before the last closing brace, or none if there is no
closing brace: the greedy first group of the split_qn pattern. -/
def upToLastBrace : List Char → Option (List Char)
  | [] => none
  | c :: cs =>
      match upToLastBrace cs with
      | some r => some (c :: r)
      | none => if c == braceCloseC then some [] else none

/-- utils.split_qn as used by get_namespaces: the namespace part of a
qualified tag.  On a tag without braces the regex fails to match and the
subscript of None raises AttributeError. -/
def split_qn (tag : String) : Except String String :=
  match tag.data with
  | [] => .error "AttributeError: NoneType object has no attribute group"
  | c :: cs =>
      if c == braceOpenC then
        match upToLastBrace cs with
        | some u => .ok (String.mk u)
        | none => .error "AttributeError: NoneType object has no attribute group"
      else .error "AttributeError: NoneType object has no attribute group"

def NS_PREFIX : String := "http://www.openmicroscopy.org/Schemas/"

def nsTailClass (c : Char) : Bool := isDigit c || c == '/' || c == '-'

/-- One pattern character of the namespace prefix: NS_RE leaves its dots
unescaped, so a dot matches any character. -/
def reLitChar (p c : Char) : Bool := (p == '.') || (p == c)

def reLitStartsWith : List Char → List Char → Bool
  | [], _ => true
  | _ :: _, [] => false
  | p :: ps, c :: cs => reLitChar p c && reLitStartsWith ps cs

/-- The characters before the last slash that is followed by a digit, slash
or dash: the greedy captured group of the namespace pattern NS_RE. -/
def lastSlashSplit : List Char → Option (List Char)
  | [] => none
  | c :: cs =>
      match lastSlashSplit cs with
      | some r => some (c :: r)
      | none =>
          match cs with
          | d :: _ => if (c == '/') && nsTailClass d then some [] else none
          | [] => none

/-- The NS_RE match of get_namespaces: for a namespace URI under the fixed
schema prefix, the captured category token, lower-cased. -/
def ns_key_of (uri : String) : Option String :=
  if reLitStartsWith NS_PREFIX.data uri.data then
    (lastSlashSplit (uri.data.drop NS_PREFIX.data.length)).map
      (fun k => String.mk (k.map Char.toLower))
  else none

/-- The namespace table get_namespaces builds: the three logical keys, plus
any other captured category token the scan stored. -/
structure NsTable where
  ome : Option String
  sa : Option String
  spw : Option String
  extra : List (String × String)
deriving DecidableEq

def nsInit : NsTable := ⟨none, none, none, []⟩

def assocSet : List (String × String) → String → String → List (String × String)
  | [], k, v => [(k, v)]
  | p :: rest, k, v => if p.1 == k then (k, v) :: rest else p :: assocSet rest k v

def nsUpdate (t : NsTable) (k uri : String) : NsTable :=
  if k == "ome" then { t with ome := some uri }
  else if k == "sa" then { t with sa := some uri }
  else if k == "spw" then { t with spw := some uri }
  else { t with extra := assocSet t.extra k uri }

/-- The scan loop of get_namespaces over the traversal order: each tag is
split, matched against NS_RE, and the table records the most recent URI per
captured key; a tag split_qn cannot handle aborts the whole scan. -/
def scanTags : NsTable → List String → Except String NsTable
  | t, [] => .ok t
  | t, tg :: rest =>
      match split_qn tg with
      | .error e => .error e
      | .ok u =>
          match ns_key_of u with
          | some k => scanTags (nsUpdate t k u) rest
          | none => scanTags t rest

theorem scanTags_cons_err (t : NsTable) (tg : String) (rest : List String)
    (e : String) (h : split_qn tg = .error e) :
    scanTags t (tg :: rest) = .error e := by
  simp [scanTags, h]

theorem scanTags_cons_skip (t : NsTable) (tg : String) (rest : List String)
    (u : String) (h1 : split_qn tg = .ok u) (h2 : ns_key_of u = none) :
    scanTags t (tg :: rest) = scanTags t rest := by
  simp [scanTags, h1, h2]

theorem scanTags_cons_upd (t : NsTable) (tg : String) (rest : List String)
    (u k : String) (h1 : split_qn tg = .ok u) (h2 : ns_key_of u = some k) :
    scanTags t (tg :: rest) = scanTags (nsUpdate t k u) rest := by
  simp [scanTags, h1, h2]

/-- utils.get_namespaces over a subtree root. -/
def get_namespaces (e : Elem) : Except String NsTable :=
  scanTags nsInit (elemTags e)

/-- A parsed document: the root and the resolved namespace table every
accessor consults. -/
structure OMEDoc where
  root : Elem
  ns : NsTable

/-- OMEXML.__init__ after the ElementTree parse: resolve the namespaces and
fail with the format error when the primary key stayed unresolved. -/
def OMEXML_init (root : Elem) : Except String OMEDoc :=
  match get_namespaces root with
  | .error e => .error e
  | .ok t =>
      if t.ome.isNone then .error "Error: String not in OME-XML format"
      else .ok ⟨root, t⟩

/-- The namespace category a single tag contributes, if any. -/
def tag_ns_key (tg : String) : Option String :=
  match split_qn tg with
  | .ok u => ns_key_of u
  | .error _ => none

theorem nsUpdate_ome_of_ne (t : NsTable) (k uri : String) (h : k ≠ "ome") :
    (nsUpdate t k uri).ome = t.ome := by
  have hk : (k == "ome") = false := by
    cases hq : k == "ome"
    · rfl
    · exact absurd (by simpa using hq) h
  unfold nsUpdate
  rw [hk]
  cases h2 : k == "sa" <;> cases h3 : k == "spw" <;> simp

theorem scanTags_ome_none (l : List String) :
    ∀ t : NsTable, (∀ tg ∈ l, tag_ns_key tg ≠ some "ome") → t.ome = none →
      ∀ t2, scanTags t l = .ok t2 → t2.ome = none := by
  induction l with
  | nil =>
      intro t _ ht t2 hs
      unfold scanTags at hs
      cases hs
      exact ht
  | cons tg rest ih =>
      intro t hall ht t2 hs
      cases hu : split_qn tg with
      | error e =>
          rw [scanTags_cons_err t tg rest e hu] at hs
          exact Except.noConfusion hs
      | ok u =>
          cases hk : ns_key_of u with
          | none =>
              rw [scanTags_cons_skip t tg rest u hu hk] at hs
              exact ih t (fun x hx => hall x (by simp [hx])) ht t2 hs
          | some k =>
              rw [scanTags_cons_upd t tg rest u k hu hk] at hs
              have hkne : k ≠ "ome" := by
                intro hke
                apply hall tg (by simp)
                unfold tag_ns_key
                rw [hu]
                show ns_key_of u = some "ome"
                rw [hk, hke]
              exact ih (nsUpdate t k u)
                (fun x hx => hall x (by simp [hx]))
                (by rw [nsUpdate_ome_of_ne t k u hkne]; exact ht) t2 hs

/-- C1: if no scanned tag contributes the primary (ome) namespace key, the
constructor fails; whenever the scan resolves a table whose ome entry is
set, construction succeeds and the document carries that table. -/
theorem c1_namespace_resolution (root : Elem) :
    ((∀ tg ∈ elemTags root, tag_ns_key tg ≠ some "ome") →
        isErr (OMEXML_init root) = true) ∧
    (∀ t, get_namespaces root = .ok t → t.ome.isSome = true →
        OMEXML_init root = .ok ⟨root, t⟩) := by
  constructor
  · intro hall
    unfold OMEXML_init
    cases hg : get_namespaces root with
    | error e => rfl
    | ok t =>
        have ho : t.ome = none :=
          scanTags_ome_none (elemTags root) nsInit hall rfl t hg
        simp [ho, isErr]
  · intro t hg hsome
    unfold OMEXML_init
    rw [hg]
    have hnone : t.ome.isNone = false := by
      revert hsome
      cases t.ome <;> simp
    simp [hnone]

/-- Witness for c1_namespace_resolution: a root in a non-schema namespace
fails construction, and the default-template root namespace resolves so
construction succeeds with the table visible on the document. -/
theorem c1_namespace_resolution_witness :
    isErr (OMEXML_init (Elem.mk (qn "http://example.org/x" "OME") [] none []))
      = true ∧
    OMEXML_init (Elem.mk (qn "http://www.openmicroscopy.org/Schemas/ome/2016-06" "OME")
        [] none [])
      = .ok ⟨Elem.mk (qn "http://www.openmicroscopy.org/Schemas/ome/2016-06" "OME")
          [] none [],
          ⟨some "http://www.openmicroscopy.org/Schemas/ome/2016-06", none, none, []⟩⟩ := by
  constructor
  · exact (c1_namespace_resolution
      (Elem.mk (qn "http://example.org/x" "OME") [] none [])).1 (by decide)
  · exact (c1_namespace_resolution
      (Elem.mk (qn "http://www.openmicroscopy.org/Schemas/ome/2016-06" "OME")
        [] none [])).2
      ⟨some "http://www.openmicroscopy.org/Schemas/ome/2016-06", none, none, []⟩
      (by rfl) (by rfl)

/-- The NameError escaping every constructor of an LSID-derived accessor:
Types.LSID._set_restriction assigns the unbound name `restriction` instead
of its parameter. -/
def lsidInitError : String := "NameError: name restriction is not defined"

/-- The NameError raised by the annotation-ref grow loop, which references
the nested class Reference by a bare name that is not in scope. -/
def refNameError : String := "NameError: name Reference is not defined"

/-- The ValueError ElementTree raises when remove is given a node that is
not a child of the receiver. -/
def removeValueError : String := "ValueError: node not in children"

/-- For identity-based removal of the tail of findall(tag): keep the first
`keep` children bearing the tag, drop the later ones, and keep every other
child in place. -/
def keepFirstMatches (tq : String) : Nat → List Elem → List Elem
  | _, [] => []
  | keep, c :: cs =>
      if c.tag == tq then
        match keep with
        | 0 => keepFirstMatches tq 0 cs
        | k + 1 => c :: keepFirstMatches tq k cs
      else c :: keepFirstMatches tq keep cs

/-- OMEXML.Pixels.set_channel_count: asserts a positive count; a larger
current count drops trailing Channel children (findall then remove); a
smaller one enters the grow loop, whose first iteration attaches an empty
Channel element and then crashes constructing the Channel accessor. -/
def set_channel_count (ns : String) (e : Elem) (v : Int) : PyRes Elem :=
  if v ≤ 0 then ⟨e, some "AssertionError"⟩
  else if ((findallL (qn ns "Channel") e.children).length : Int) > v then
    ⟨Elem.mk e.tag e.attrs e.txt (keepFirstMatches (qn ns "Channel") v.toNat e.children), none⟩
  else if ((findallL (qn ns "Channel") e.children).length : Int) < v then
    ⟨appendChild e (Elem.mk (qn ns "Channel") [] none []), some lsidInitError⟩
  else ⟨e, none⟩

/-- OMEXML.Pixels.set_plane_count: asserts a non-negative count; shrink
drops trailing Plane children, growth attaches bare Plane elements (the
Plane accessor sets nothing on construction). -/
def set_plane_count (ns : String) (e : Elem) (v : Int) : PyRes Elem :=
  if v < 0 then ⟨e, some "AssertionError"⟩
  else if ((findallL (qn ns "Plane") e.children).length : Int) > v then
    ⟨Elem.mk e.tag e.attrs e.txt (keepFirstMatches (qn ns "Plane") v.toNat e.children), none⟩
  else
    ⟨Elem.mk e.tag e.attrs e.txt
      (e.children ++ List.replicate (v - ((findallL (qn ns "Plane") e.children).length : Int)).toNat
        (Elem.mk (qn ns "Plane") [] none [])), none⟩

/-- OMEXML.Pixels.set_tiffdata_count: removes every TiffData child whatever
the requested count, then attaches that many fresh empty ones. -/
def set_tiffdata_count (ns : String) (e : Elem) (v : Int) : PyRes Elem :=
  if v < 0 then ⟨e, some "AssertionError"⟩
  else
    ⟨Elem.mk e.tag e.attrs e.txt
      (e.children.filter (fun c => !(c.tag == qn ns "TiffData")) ++
        List.replicate v.toNat (Elem.mk (qn ns "TiffData") [] none [])), none⟩

/-- Types.Annotation.set_annotation_ref_count (same body on Shape): shrink
drops trailing AnnotationRef children via findall; the grow loop resolves
the bare name Reference before evaluating any argument, so it raises
without attaching anything. -/
def set_annotation_ref_count (ns : String) (e : Elem) (v : Int) : PyRes Elem :=
  if v < 0 then ⟨e, some "AssertionError"⟩
  else if ((findallL (qn ns "AnnotationRef") e.children).length : Int) > v then
    ⟨Elem.mk e.tag e.attrs e.txt (keepFirstMatches (qn ns "AnnotationRef") v.toNat e.children), none⟩
  else if ((findallL (qn ns "AnnotationRef") e.children).length : Int) < v then
    ⟨e, some refNameError⟩
  else ⟨e, none⟩

/-- OMEXML.set_image_count: the shrink branch calls find (singular), so it
slices the children of the first Image node; removing one of those from the
root raises ValueError, and when the slice is empty nothing is removed at
all.  The grow loop attaches an empty Image element and then crashes
constructing the Image accessor. -/
def set_image_count (ns : String) (e : Elem) (v : Int) : PyRes Elem :=
  if v ≤ 0 then ⟨e, some "AssertionError"⟩
  else if ((findallL (qn ns "Image") e.children).length : Int) > v then
    match findL (qn ns "Image") e.children with
    | some firstImg =>
        if (firstImg.children.drop v.toNat).isEmpty then ⟨e, none⟩
        else ⟨e, some removeValueError⟩
    | none => ⟨e, none⟩
  else if ((findallL (qn ns "Image") e.children).length : Int) < v then
    ⟨appendChild e (Elem.mk (qn ns "Image") [] none []), some lsidInitError⟩
  else ⟨e, none⟩

/-- The Rectangle node set_roi_count builds for the ROI with this index. -/
def defaultRectangle (ns : String) (i : Int) : Elem :=
  Elem.mk (qn ns "Rectangle")
    [("ID", .s ("Shape:" ++ pyStr i ++ ":0")), ("TheZ", .s "0"), ("TheC", .s "0"),
     ("TheT", .s "0"), ("StrokeColor", .s "-16776961"), ("StrokeWidth", .s "20"),
     ("Text", .s (pyStr i)), ("Width", .s "512"), ("Height", .s "512"),
     ("X", .s "0"), ("Y", .s "0")] none []

/-- The ROI subtree set_roi_count builds: the canonicalized ROI ID, a name,
and a nested Union holding the default Rectangle. -/
def defaultROI (ns : String) (i : Int) : Elem :=
  Elem.mk (qn ns "ROI")
    [("ID", .s ("ROI:" ++ pyStr i)), ("Name", .s ("Marker " ++ pyStr i))] none
    [Elem.mk (qn ns "Union") [] none [defaultRectangle ns i]]

/-- OMEXML.set_roi_count: the shrink branch has the same find (singular)
defect as set_image_count; the grow loop attaches default ROI subtrees, the
loop variable being the pre-attach count minus one each iteration. -/
def set_roi_count (ns : String) (e : Elem) (v : Int) : PyRes Elem :=
  if v ≤ 0 then ⟨e, some "AssertionError"⟩
  else if ((findallL (qn ns "ROI") e.children).length : Int) > v then
    match findL (qn ns "ROI") e.children with
    | some firstRoi =>
        if (firstRoi.children.drop v.toNat).isEmpty then ⟨e, none⟩
        else ⟨e, some removeValueError⟩
    | none => ⟨e, none⟩
  else
    ⟨Elem.mk e.tag e.attrs e.txt
      (e.children ++ (List.range (v - ((findallL (qn ns "ROI") e.children).length : Int)).toNat).map
        (fun j => defaultROI ns (((findallL (qn ns "ROI") e.children).length : Int) + j - 1))), none⟩

/-- OMEXML.Image.set_roiref_count: same find (singular) shrink defect; the
grow loop attaches ROIRef elements whose set_ID prepends the ROI prefix to
an argument that already carries it. -/
def set_roiref_count (ns : String) (e : Elem) (v : Int) : PyRes Elem :=
  if v ≤ 0 then ⟨e, some "AssertionError"⟩
  else if ((findallL (qn ns "ROIRef") e.children).length : Int) > v then
    match findL (qn ns "ROIRef") e.children with
    | some firstRef =>
        if (firstRef.children.drop v.toNat).isEmpty then ⟨e, none⟩
        else ⟨e, some removeValueError⟩
    | none => ⟨e, none⟩
  else
    ⟨Elem.mk e.tag e.attrs e.txt
      (e.children ++ (List.range (v - ((findallL (qn ns "ROIRef") e.children).length : Int)).toNat).map
        (fun j => Elem.mk (qn ns "ROIRef")
          [("ID", .s ("ROI:" ++ ("ROI:" ++ pyStr (((findallL (qn ns "ROIRef") e.children).length : Int) + j - 1))))]
          none [])), none⟩

def ns_ome_default : String := "http://www.openmicroscopy.org/Schemas/ome/2016-06"

/-- The Pixels subtree of the default document template in utils.default_xml:
one Channel with SamplesPerPixel 1 holding an empty LightPath. -/
def defaultPixels : Elem :=
  Elem.mk (qn ns_ome_default "Pixels")
    [("BigEndian", .s "false"), ("DimensionOrder", .s "XYCZT"), ("ID", .s "Pixels:0"),
     ("Interleaved", .s "false"), ("SizeC", .s "1"), ("SizeT", .s "1"),
     ("SizeX", .s "512"), ("SizeY", .s "512"), ("SizeZ", .s "1"), ("Type", .s "uint8")]
    none
    [Elem.mk (qn ns_ome_default "Channel")
      [("ID", .s "Channel:0:0"), ("SamplesPerPixel", .s "1")] none
      [Elem.mk (qn ns_ome_default "LightPath") [] none []]]

/-- C2: on the default document, requesting three channels crashes with the
NameError from the LSID constructor typo after attaching one bare Channel
element; the Pixels node ends with two Channel children, the new one
carrying neither an ID nor SamplesPerPixel. -/
theorem c2_channel_count_code_bug :
    (set_channel_count ns_ome_default defaultPixels 3).exc = some lsidInitError ∧
    (findallL (qn ns_ome_default "Channel")
        (set_channel_count ns_ome_default defaultPixels 3).val.children).map
        (fun c => attrGet c "ID")
      = [some (.s "Channel:0:0"), none] ∧
    (findallL (qn ns_ome_default "Channel")
        (set_channel_count ns_ome_default defaultPixels 3).val.children).map
        (fun c => attrGet c "SamplesPerPixel")
      = [some (.s "1"), none] := by
  refine ⟨rfl, rfl, rfl⟩

theorem keepFirstMatches_findall (tq : String) (cs : List Elem) :
    ∀ n : Nat, findallL tq (keepFirstMatches tq n cs) = (findallL tq cs).take n := by
  induction cs with
  | nil => intro n; cases n <;> simp [keepFirstMatches, findallL]
  | cons c cs ih =>
      have ih2 : ∀ m : Nat, List.filter (fun x => x.tag == tq) (keepFirstMatches tq m cs)
          = List.take m (List.filter (fun x => x.tag == tq) cs) := by
        intro m
        simpa [findallL] using ih m
      intro n
      cases h : (c.tag == tq) with
      | true =>
          cases n with
          | zero => simp [keepFirstMatches, findallL, h, ih2 0]
          | succ k => simp [keepFirstMatches, findallL, h, ih2 k]
      | false => simp [keepFirstMatches, findallL, h, ih2 n]

theorem keepFirstMatches_others (tq : String) (cs : List Elem) :
    ∀ n : Nat, (keepFirstMatches tq n cs).filter (fun c => !(c.tag == tq))
      = cs.filter (fun c => !(c.tag == tq)) := by
  induction cs with
  | nil => intro n; cases n <;> simp [keepFirstMatches]
  | cons c cs ih =>
      intro n
      cases h : (c.tag == tq) with
      | true =>
          cases n with
          | zero => simp [keepFirstMatches, h, ih 0]
          | succ k => simp [keepFirstMatches, h, ih k]
      | false => simp [keepFirstMatches, h, ih n]

def cxTiffData (ifd : String) : Elem :=
  Elem.mk (qn ns_ome_default "TiffData") [("IFD", .s ifd)] none []

def cxPixels : Elem :=
  Elem.mk (qn ns_ome_default "Pixels") [] none
    [cxTiffData "0", cxTiffData "1", cxTiffData "2"]

/-- Counterexample to C5: shrinking tiffdata_count from 3 to 2 succeeds but
replaces the earlier TiffData children with fresh attribute-less nodes
instead of leaving them unchanged. -/
theorem c5_tiffdata_counterexample :
    (set_tiffdata_count ns_ome_default cxPixels 2).exc = none ∧
    (findallL (qn ns_ome_default "TiffData") cxPixels.children).map
        (fun c => attrGet c "IFD")
      = [some (.s "0"), some (.s "1"), some (.s "2")] ∧
    (findallL (qn ns_ome_default "TiffData")
        (set_tiffdata_count ns_ome_default cxPixels 2).val.children).map
        (fun c => attrGet c "IFD")
      = [none, none] := by
  refine ⟨rfl, rfl, rfl⟩

/-- C5 amended: shrinking removes only trailing children for channel_count,
plane_count and annotation_ref_count (the earlier matching children and all
other children stay in place, in order); tiffdata_count instead discards
every TiffData child and attaches fresh empty ones; and the shrink branches
of image_count, roi_count and roiref_count never remove a child at all
(they slice the children of the first matching node and either do nothing
or raise ValueError). -/
theorem c5_shrink_amended (ns : String) (e : Elem) (v : Int) :
    (0 < v → v < ((findallL (qn ns "Channel") e.children).length : Int) →
        (set_channel_count ns e v).exc = none ∧
        findallL (qn ns "Channel") (set_channel_count ns e v).val.children
          = (findallL (qn ns "Channel") e.children).take v.toNat ∧
        (set_channel_count ns e v).val.children.filter (fun c => !(c.tag == qn ns "Channel"))
          = e.children.filter (fun c => !(c.tag == qn ns "Channel"))) ∧
    (0 ≤ v → v < ((findallL (qn ns "Plane") e.children).length : Int) →
        (set_plane_count ns e v).exc = none ∧
        findallL (qn ns "Plane") (set_plane_count ns e v).val.children
          = (findallL (qn ns "Plane") e.children).take v.toNat ∧
        (set_plane_count ns e v).val.children.filter (fun c => !(c.tag == qn ns "Plane"))
          = e.children.filter (fun c => !(c.tag == qn ns "Plane"))) ∧
    (0 ≤ v → v < ((findallL (qn ns "AnnotationRef") e.children).length : Int) →
        (set_annotation_ref_count ns e v).exc = none ∧
        findallL (qn ns "AnnotationRef") (set_annotation_ref_count ns e v).val.children
          = (findallL (qn ns "AnnotationRef") e.children).take v.toNat ∧
        (set_annotation_ref_count ns e v).val.children.filter (fun c => !(c.tag == qn ns "AnnotationRef"))
          = e.children.filter (fun c => !(c.tag == qn ns "AnnotationRef"))) ∧
    (0 ≤ v →
        (set_tiffdata_count ns e v).exc = none ∧
        (set_tiffdata_count ns e v).val.children
          = e.children.filter (fun c => !(c.tag == qn ns "TiffData")) ++
            List.replicate v.toNat (Elem.mk (qn ns "TiffData") [] none [])) ∧
    (0 < v → v < ((findallL (qn ns "Image") e.children).length : Int) →
        (set_image_count ns e v).val = e) ∧
    (0 < v → v < ((findallL (qn ns "ROI") e.children).length : Int) →
        (set_roi_count ns e v).val = e) ∧
    (0 < v → v < ((findallL (qn ns "ROIRef") e.children).length : Int) →
        (set_roiref_count ns e v).val = e) := by
  refine ⟨?_, ?_, ?_, ?_, ?_, ?_, ?_⟩
  · intro h1 h2
    have hA : ¬ (v ≤ 0) := by omega
    have hB : ((findallL (qn ns "Channel") e.children).length : Int) > v := h2
    unfold set_channel_count
    rw [if_neg hA, if_pos hB]
    exact ⟨rfl, by simpa [findallL] using keepFirstMatches_findall (qn ns "Channel") e.children v.toNat,
      keepFirstMatches_others (qn ns "Channel") e.children v.toNat⟩
  · intro h1 h2
    have hA : ¬ (v < 0) := by omega
    have hB : ((findallL (qn ns "Plane") e.children).length : Int) > v := h2
    unfold set_plane_count
    rw [if_neg hA, if_pos hB]
    exact ⟨rfl, by simpa [findallL] using keepFirstMatches_findall (qn ns "Plane") e.children v.toNat,
      keepFirstMatches_others (qn ns "Plane") e.children v.toNat⟩
  · intro h1 h2
    have hA : ¬ (v < 0) := by omega
    have hB : ((findallL (qn ns "AnnotationRef") e.children).length : Int) > v := h2
    unfold set_annotation_ref_count
    rw [if_neg hA, if_pos hB]
    exact ⟨rfl, by simpa [findallL] using keepFirstMatches_findall (qn ns "AnnotationRef") e.children v.toNat,
      keepFirstMatches_others (qn ns "AnnotationRef") e.children v.toNat⟩
  · intro h1
    have hA : ¬ (v < 0) := by omega
    unfold set_tiffdata_count
    rw [if_neg hA]
    exact ⟨rfl, rfl⟩
  · intro h1 h2
    have hA : ¬ (v ≤ 0) := by omega
    have hB : ((findallL (qn ns "Image") e.children).length : Int) > v := h2
    unfold set_image_count
    rw [if_neg hA, if_pos hB]
    cases hf : findL (qn ns "Image") e.children with
    | none => rfl
    | some firstImg =>
        cases hd : (firstImg.children.drop v.toNat).isEmpty <;> simp [hd]
  · intro h1 h2
    have hA : ¬ (v ≤ 0) := by omega
    have hB : ((findallL (qn ns "ROI") e.children).length : Int) > v := h2
    unfold set_roi_count
    rw [if_neg hA, if_pos hB]
    cases hf : findL (qn ns "ROI") e.children with
    | none => rfl
    | some firstRoi =>
        cases hd : (firstRoi.children.drop v.toNat).isEmpty <;> simp [hd]
  · intro h1 h2
    have hA : ¬ (v ≤ 0) := by omega
    have hB : ((findallL (qn ns "ROIRef") e.children).length : Int) > v := h2
    unfold set_roiref_count
    rw [if_neg hA, if_pos hB]
    cases hf : findL (qn ns "ROIRef") e.children with
    | none => rfl
    | some firstRef =>
        cases hd : (firstRef.children.drop v.toNat).isEmpty <;> simp [hd]

def cxChan (id : String) : Elem :=
  Elem.mk (qn ns_ome_default "Channel") [("ID", .s id)] none []

def cxChanPix : Elem :=
  Elem.mk (qn ns_ome_default "Pixels") [] none
    [cxChan "Channel:0:0", cxChan "Channel:0:1", cxChan "Channel:0:2"]

/-- Witness for c5_shrink_amended: shrinking three channels to two succeeds,
and the tiffdata setter rebuilds its children from scratch. -/
theorem c5_shrink_amended_witness :
    (set_channel_count ns_ome_default cxChanPix 2).exc = none ∧
    (set_tiffdata_count ns_ome_default cxPixels 2).val.children
      = cxPixels.children.filter (fun c => !(c.tag == qn ns_ome_default "TiffData")) ++
        List.replicate (2 : Int).toNat (Elem.mk (qn ns_ome_default "TiffData") [] none []) :=
  ⟨((c5_shrink_amended ns_ome_default cxChanPix 2).1 (by decide) (by decide)).1,
   ((c5_shrink_amended ns_ome_default cxPixels 2).2.2.2.1 (by decide)).2⟩

/-- The key forms a Well lookup receives: a two-int coordinate pair, a
plain integer index, or a string. -/
inductive WKey where
  | pair (a b : Int)
  | idx (i : Int)
  | name (s : String)

/-- Python list indexing with negative indices from the end and IndexError
outside the range. -/
def pyListIndex (ws : List Elem) (i : Int) : Except String Elem :=
  if (if i < 0 then i + ws.length else i) < 0 then
    .error "IndexError: list index out of range"
  else
    match ws.get? (if i < 0 then i + ws.length else i).toNat with
    | some w => .ok w
    | none => .error "IndexError: list index out of range"

/-- The coordinate loop of WellsDucktype.__getitem__: the first well whose
Row equals the first component and whose Column equals the second; the
Column is only read when the Row matched, and reading propagates the
ValueError of a malformed attribute. -/
def coordScan (a b : Int) : List Elem → Except String (Option Elem)
  | [] => .ok none
  | w :: ws =>
      match get_int_attr w "Row" with
      | .error e => .error e
      | .ok r =>
          if r == some a then
            match get_int_attr w "Column" with
            | .error e => .error e
            | .ok c => if c == some b then .ok (some w) else coordScan a b ws
          else coordScan a b ws

/-- The trailing loop of WellsDucktype.__getitem__: per well, first the
derived name is compared with the key, then the literal ID attribute; a
non-string key (the fallen-through tuple, modelled as none) matches
neither.  Deriving the name can itself raise. -/
def nameIdScan (plate : Elem) (key : Option String) : List Elem → Except String (Option Elem)
  | [] => .ok none
  | w :: ws =>
      match get_well_name plate w with
      | .error e => .error e
      | .ok nm =>
          if (match key with | some s => nm == s | none => false) then .ok (some w)
          else if (match key, attrGet w "ID" with
                   | some s, some (.s t) => t == s
                   | _, _ => false) then .ok (some w)
          else nameIdScan plate key ws

/-- The Row reads the coordinate branch performs on a two-character string
key: each comparison reads well.Row (which can raise) and compares it with
a character, which is never equal. -/
def rowReadScan : List Elem → Except String Unit
  | [] => .ok ()
  | w :: ws =>
      match get_int_attr w "Row" with
      | .error e => .error e
      | .ok _ => rowReadScan ws

/-- WellsDucktype.__getitem__: a length-two key enters the coordinate
branch (even a two-character string, whose comparisons cannot succeed), an
int key indexes the list directly, and any remaining key falls to the
name-then-ID loop, returning None when nothing matched. -/
def wells_getitem (ns : String) (plate : Elem) (key : WKey) : Except String (Option Elem) :=
  match key with
  | .pair a b =>
      match coordScan a b (findallL (qn ns "Well") plate.children) with
      | .error e => .error e
      | .ok (some w) => .ok (some w)
      | .ok none => nameIdScan plate none (findallL (qn ns "Well") plate.children)
  | .idx i => (pyListIndex (findallL (qn ns "Well") plate.children) i).map some
  | .name s =>
      if s.length == 2 then
        match rowReadScan (findallL (qn ns "Well") plate.children) with
        | .error e => .error e
        | .ok _ => nameIdScan plate (some s) (findallL (qn ns "Well") plate.children)
      else nameIdScan plate (some s) (findallL (qn ns "Well") plate.children)

def ns_spw_default : String := "http://www.openmicroscopy.org/Schemas/spw/2016-06"

def cxWell0 : Elem :=
  Elem.mk (qn ns_spw_default "Well")
    [("Row", .s "0"), ("Column", .s "0"), ("ID", .s "Well:0")] none []

def cxPlate : Elem :=
  Elem.mk (qn ns_spw_default "Plate") [] none [cxWell0]

/-- Counterexample to C6: on a plate with one well, the integer key 1
matches nothing, and the lookup raises IndexError instead of returning the
not-found result. -/
theorem c6_index_counterexample :
    wells_getitem ns_spw_default cxPlate (.idx 1)
      = .error "IndexError: list index out of range" := rfl

/-- The Row attribute as an optional int, when reading does not raise. -/
def rowOf (w : Elem) : Option Int :=
  match get_int_attr w "Row" with
  | .ok v => v
  | .error _ => none

/-- The Column attribute as an optional int, when reading does not raise. -/
def colOf (w : Elem) : Option Int :=
  match get_int_attr w "Column" with
  | .ok v => v
  | .error _ => none

/-- The derived well name, when deriving does not raise. -/
def nameOf (plate w : Elem) : Option String :=
  match get_well_name plate w with
  | .ok nm => some nm
  | .error _ => none

/-- The literal ID attribute when it is a string. -/
def idStrOf (w : Elem) : Option String :=
  match attrGet w "ID" with
  | some (.s t) => some t
  | _ => none

/-- The first well at the given coordinates. -/
def pairFind (a b : Int) (ws : List Elem) : Option Elem :=
  ws.find? (fun w => (rowOf w == some a) && (colOf w == some b))

/-- The first well whose derived name or literal ID equals the key. -/
def nameIdFind (plate : Elem) (s : String) (ws : List Elem) : Option Elem :=
  ws.find? (fun w => (nameOf plate w == some s) || (idStrOf w == some s))

/-- A well the lookup loops can process without raising: integer Row and
Column attributes and a derivable name. -/
def wellWF (plate w : Elem) : Prop :=
  (∃ r, get_int_attr w "Row" = .ok (some r)) ∧
  (∃ c, get_int_attr w "Column" = .ok (some c)) ∧
  (∃ nm, get_well_name plate w = .ok nm)

theorem coordScan_eq (plate : Elem) (a b : Int) (ws : List Elem)
    (hwf : ∀ w ∈ ws, wellWF plate w) :
    coordScan a b ws = .ok (pairFind a b ws) := by
  induction ws with
  | nil => rfl
  | cons w ws ih =>
      obtain ⟨⟨r0, hr⟩, ⟨c0, hc⟩, _⟩ := hwf w (by simp)
      have ihw : coordScan a b ws = .ok (pairFind a b ws) :=
        ih (fun x hx => hwf x (by simp [hx]))
      cases hra : ((some r0 : Option Int) == some a) with
      | false =>
          simp [coordScan, hr, hra, pairFind, List.find?, rowOf, ihw]
      | true =>
          cases hcb : ((some c0 : Option Int) == some b) with
          | false =>
              simp [coordScan, hr, hra, hc, hcb, pairFind, List.find?,
                rowOf, colOf, ihw]
          | true =>
              simp [coordScan, hr, hra, hc, hcb, pairFind, List.find?,
                rowOf, colOf]

theorem nameIdScan_none (plate : Elem) (ws : List Elem)
    (hwf : ∀ w ∈ ws, wellWF plate w) :
    nameIdScan plate none ws = .ok none := by
  induction ws with
  | nil => rfl
  | cons w ws ih =>
      obtain ⟨_, _, ⟨nm0, hnm⟩⟩ := hwf w (by simp)
      have ihw := ih (fun x hx => hwf x (by simp [hx]))
      simp [nameIdScan, hnm, ihw]

theorem nameIdScan_eq (plate : Elem) (s : String) (ws : List Elem)
    (hwf : ∀ w ∈ ws, wellWF plate w) :
    nameIdScan plate (some s) ws = .ok (nameIdFind plate s ws) := by
  induction ws with
  | nil => rfl
  | cons w ws ih =>
      obtain ⟨_, _, ⟨nm0, hnm⟩⟩ := hwf w (by simp)
      have ihw := ih (fun x hx => hwf x (by simp [hx]))
      cases hn : (nm0 == s) with
      | true =>
          simp [nameIdScan, hnm, hn, nameIdFind, List.find?, nameOf]
      | false =>
          cases hA : attrGet w "ID" with
          | none =>
              simp [nameIdScan, hnm, hn, hA, nameIdFind, List.find?,
                nameOf, idStrOf, ihw]
          | some av =>
              cases av with
              | n k =>
                  simp [nameIdScan, hnm, hn, hA, nameIdFind, List.find?,
                    nameOf, idStrOf, ihw]
              | s t =>
                  cases ht : (t == s) with
                  | true =>
                      simp [nameIdScan, hnm, hn, hA, ht, nameIdFind,
                        List.find?, nameOf, idStrOf]
                  | false =>
                      simp [nameIdScan, hnm, hn, hA, ht, nameIdFind,
                        List.find?, nameOf, idStrOf, ihw]

theorem rowReadScan_ok (plate : Elem) (ws : List Elem)
    (hwf : ∀ w ∈ ws, wellWF plate w) :
    rowReadScan ws = .ok () := by
  induction ws with
  | nil => rfl
  | cons w ws ih =>
      obtain ⟨⟨r0, hr⟩, _, _⟩ := hwf w (by simp)
      have ihw := ih (fun x hx => hwf x (by simp [hx]))
      simp [rowReadScan, hr, ihw]

theorem pyListIndex_nonneg (ws : List Elem) (i : Int) (h0 : 0 ≤ i)
    (h : i.toNat < ws.length) :
    pyListIndex ws i = .ok (ws.get ⟨i.toNat, h⟩) := by
  have hni : ¬ i < 0 := by omega
  simp [pyListIndex, hni, List.getElem?_eq_getElem h]

theorem pyListIndex_oob (ws : List Elem) (i : Int)
    (h : (ws.length : Int) ≤ i) :
    pyListIndex ws i = .error "IndexError: list index out of range" := by
  have hni : ¬ i < 0 := by omega
  have hlen : ws.length ≤ i.toNat := by omega
  simp [pyListIndex, hni, List.getElem?_eq_none hlen]

/-- C6 amended: with wells the loops can process, a coordinate pair key
resolves to the first well at those coordinates (trying wells before any
name resolution, and yielding the not-found result if none matches), an
in-range integer key resolves positionally while an out-of-range one
raises IndexError rather than returning the not-found result, and a string
key resolves per well by derived name and then literal ID, returning the
not-found result when nothing matches. -/
theorem c6_lookup_amended (ns : String) (plate : Elem)
    (hwf : ∀ w ∈ findallL (qn ns "Well") plate.children, wellWF plate w) :
    (∀ a b : Int, wells_getitem ns plate (.pair a b)
        = .ok (pairFind a b (findallL (qn ns "Well") plate.children))) ∧
    (∀ i : Int, 0 ≤ i →
        ∀ h : i.toNat < (findallL (qn ns "Well") plate.children).length,
        wells_getitem ns plate (.idx i)
          = .ok (some ((findallL (qn ns "Well") plate.children).get ⟨i.toNat, h⟩))) ∧
    (∀ i : Int, ((findallL (qn ns "Well") plate.children).length : Int) ≤ i →
        wells_getitem ns plate (.idx i)
          = .error "IndexError: list index out of range") ∧
    (∀ s : String, wells_getitem ns plate (.name s)
        = .ok (nameIdFind plate s (findallL (qn ns "Well") plate.children))) := by
  refine ⟨?_, ?_, ?_, ?_⟩
  · intro a b
    simp only [wells_getitem]
    rw [coordScan_eq plate a b _ hwf]
    cases hp : pairFind a b (findallL (qn ns "Well") plate.children) with
    | some w => simp [hp]
    | none => simp [hp, nameIdScan_none plate _ hwf]
  · intro i h0 h
    simp only [wells_getitem]
    rw [pyListIndex_nonneg _ i h0 h]
    rfl
  · intro i h
    simp only [wells_getitem]
    rw [pyListIndex_oob _ i h]
    rfl
  · intro s
    simp only [wells_getitem]
    cases h2 : (s.length == 2) with
    | true =>
        rw [if_pos rfl, rowReadScan_ok plate _ hwf]
        exact nameIdScan_eq plate s _ hwf
    | false =>
        rw [if_neg (by simp)]
        exact nameIdScan_eq plate s _ hwf

def c6WellB : Elem :=
  Elem.mk (qn ns_spw_default "Well")
    [("Row", .s "1"), ("Column", .s "2"), ("ID", .s "Well:0:0")] none []

def c6Plate : Elem :=
  Elem.mk (qn ns_spw_default "Plate") [] none [c6WellB]

/-- Witness for c6_lookup_amended: on a one-well plate with the default
conventions, the coordinate key (1,2) and the name key B03 both resolve to
the well, and a key matching nothing yields the not-found result. -/
theorem c6_lookup_amended_witness :
    wells_getitem ns_spw_default c6Plate (.pair 1 2) = .ok (some c6WellB) ∧
    wells_getitem ns_spw_default c6Plate (.name "B03") = .ok (some c6WellB) ∧
    wells_getitem ns_spw_default c6Plate (.name "missing") = .ok none := by
  have hwf : ∀ w ∈ findallL (qn ns_spw_default "Well") c6Plate.children,
      wellWF c6Plate w := by
    intro w hw
    have hws : findallL (qn ns_spw_default "Well") c6Plate.children = [c6WellB] := rfl
    rw [hws] at hw
    have hwe : w = c6WellB := by simpa using hw
    subst hwe
    exact ⟨⟨1, rfl⟩, ⟨2, rfl⟩, ⟨"B03", rfl⟩⟩
  refine ⟨?_, ?_, ?_⟩
  · exact ((c6_lookup_amended ns_spw_default c6Plate hwf).1 1 2).trans (by rfl)
  · exact ((c6_lookup_amended ns_spw_default c6Plate hwf).2.2.2 "B03").trans (by rfl)
  · exact ((c6_lookup_amended ns_spw_default c6Plate hwf).2.2.2 "missing").trans (by rfl)

/-- OMEXML.LightSourceSettings.set_Wavelength: a negative value raises
ValueError (logged and re-raised) without touching the node; otherwise the
wavelength is stored as the raw number and, when the current
WavelengthUnit attribute is falsy (absent or empty), the default unit nm
is injected by the same call. -/
def set_Wavelength (e : Elem) (v : Int) : PyRes Elem :=
  if v < 0 then ⟨e, some "ValueError: Wavelength must be a positive number"⟩
  else
    if truthyOpt (attrGet (attrSet e "Wavelength" (.n v)) "WavelengthUnit") then
      ⟨attrSet e "Wavelength" (.n v), none⟩
    else
      ⟨attrSet (attrSet e "Wavelength" (.n v)) "WavelengthUnit" (.s "nm"), none⟩

def c7Node : Elem :=
  Elem.mk "LightSourceSettings" [("WavelengthUnit", .s "")] none []

/-- Counterexample to C7: a WavelengthUnit attribute that is present but
empty is not left unchanged; setting Wavelength to 500 overwrites it with
nm. -/
theorem c7_unit_counterexample :
    attrGet c7Node "WavelengthUnit" = some (.s "") ∧
    (set_Wavelength c7Node 500).exc = none ∧
    attrGet (set_Wavelength c7Node 500).val "WavelengthUnit" = some (.s "nm") := by
  refine ⟨rfl, rfl, rfl⟩

/-- C7 amended: setting Wavelength to 500 stores the wavelength, and sets
WavelengthUnit to nm exactly when the stored unit is falsy (absent or
empty); a present truthy unit is left unchanged. -/
theorem c7_wavelength_default_unit (e : Elem) :
    (attrGet e "WavelengthUnit" = none →
        (set_Wavelength e 500).exc = none ∧
        attrGet (set_Wavelength e 500).val "Wavelength" = some (.n 500) ∧
        attrGet (set_Wavelength e 500).val "WavelengthUnit" = some (.s "nm")) ∧
    (∀ u, attrGet e "WavelengthUnit" = some u → truthy u = true →
        (set_Wavelength e 500).exc = none ∧
        attrGet (set_Wavelength e 500).val "Wavelength" = some (.n 500) ∧
        attrGet (set_Wavelength e 500).val "WavelengthUnit" = some u) ∧
    (∀ u, attrGet e "WavelengthUnit" = some u → truthy u = false →
        attrGet (set_Wavelength e 500).val "WavelengthUnit" = some (.s "nm")) := by
  have hne : (("WavelengthUnit" : String) == "Wavelength") = false := by decide
  have hget : attrGet (attrSet e "Wavelength" (.n 500)) "WavelengthUnit"
      = attrGet e "WavelengthUnit" :=
    attrGet_attrSet_other e "Wavelength" "WavelengthUnit" (.n 500) hne
  have hv : ¬ ((500 : Int) < 0) := by omega
  refine ⟨?_, ?_, ?_⟩
  · intro h0
    unfold set_Wavelength
    rw [if_neg hv, hget, h0]
    refine ⟨rfl, ?_, ?_⟩
    · rw [if_neg (by simp [truthyOpt])]
      show attrGet (attrSet (attrSet e "Wavelength" (.n 500)) "WavelengthUnit" (.s "nm")) "Wavelength"
        = some (.n 500)
      rw [attrGet_attrSet_other _ "WavelengthUnit" "Wavelength" (.s "nm") (by decide)]
      exact attrGet_attrSet_same e "Wavelength" (.n 500)
    · rw [if_neg (by simp [truthyOpt])]
      exact attrGet_attrSet_same _ "WavelengthUnit" (.s "nm")
  · intro u hu htr
    unfold set_Wavelength
    rw [if_neg hv, hget, hu]
    have htp : truthyOpt (some u) = true := by simp [truthyOpt, htr]
    rw [if_pos htp]
    refine ⟨rfl, ?_, ?_⟩
    · exact attrGet_attrSet_same e "Wavelength" (.n 500)
    · rw [hget, hu]
  · intro u hu htr
    unfold set_Wavelength
    rw [if_neg hv, hget, hu]
    have htp : truthyOpt (some u) = false := by simp [truthyOpt, htr]
    rw [if_neg (by simp [htp])]
    exact attrGet_attrSet_same _ "WavelengthUnit" (.s "nm")

/-- Witness for c7_wavelength_default_unit: a node with no unit gets nm, a
node with a micrometre unit keeps it. -/
theorem c7_wavelength_default_unit_witness :
    attrGet (set_Wavelength (Elem.mk "LightSourceSettings" [] none []) 500).val
        "WavelengthUnit" = some (.s "nm") ∧
    attrGet (set_Wavelength
        (Elem.mk "LightSourceSettings" [("WavelengthUnit", .s "µm")] none []) 500).val
        "WavelengthUnit" = some (.s "µm") :=
  ⟨((c7_wavelength_default_unit
      (Elem.mk "LightSourceSettings" [] none [])).1 (by rfl)).2.2,
   ((c7_wavelength_default_unit
      (Elem.mk "LightSourceSettings" [("WavelengthUnit", .s "µm")] none [])).2.1
      (.s "µm") (by rfl) (by rfl)).2.2⟩

def NS_ORIGINAL_METADATA : String := "openmicroscopy.org/OriginalMetadata"

/-- One step of the original-metadata iterator: a yielded (id, key, value)
triple, or the AttributeError the logging branch raises on an entry whose
Key or Value node exists but has no text (Element has no toxml method). -/
inductive OMEvent where
  | entry (id : Option AVal) (key : String) (value : String)
  | crash
deriving DecidableEq

/-- The events one OriginalMetadata node contributes: an entry when Key and
Value child nodes exist with text, a crash when a node exists without
text, and nothing at all when either node is missing. -/
def omOfNode (annId : Option AVal) (om : Elem) : List OMEvent :=
  match findL (qn NS_ORIGINAL_METADATA "Key") om.children,
        findL (qn NS_ORIGINAL_METADATA "Value") om.children with
  | some kn, some vn =>
      match kn.txt, vn.txt with
      | some kt, some vt => [.entry annId kt vt]
      | _, _ => [.crash]
  | _, _ => []

def omListEvents (annId : Option AVal) : List Elem → List OMEvent
  | [] => []
  | om :: oms => omOfNode annId om ++ omListEvents annId oms

def valEvents (annId : Option AVal) (xv : Elem) : List OMEvent :=
  omListEvents annId (findallL (qn NS_ORIGINAL_METADATA "OriginalMetadata") xv.children)

def valListEvents (annId : Option AVal) : List Elem → List OMEvent
  | [] => []
  | v :: vs => valEvents annId v ++ valListEvents annId vs

def annEvents (nsSa : String) (an : Elem) : List OMEvent :=
  valListEvents (attrGet an "ID") (findallL (qn nsSa "Value") an.children)

def annListEvents (nsSa : String) : List Elem → List OMEvent
  | [] => []
  | a :: rest => annEvents nsSa a ++ annListEvents nsSa rest

/-- StructuredAnnotations.iter_original_metadata: the generator walks every
sa:XMLAnnotation child, its sa:Value children and their OriginalMetadata
children in document order. -/
def iter_original_metadata (nsSa : String) (sa : Elem) : List OMEvent :=
  annListEvents nsSa (findallL (qn nsSa "XMLAnnotation") sa.children)

/-- StructuredAnnotations.add_original_metadata: attach an XMLAnnotation
with a generated ID holding a Value wrapping an OriginalMetadata node with
Key and Value text children, and return the ID. -/
def add_original_metadata (nsSa : String) (sa : Elem) (key value : String)
    (freshId : String) : Elem × String :=
  (appendChild sa (Elem.mk (qn nsSa "XMLAnnotation") [("ID", .s freshId)] none
    [Elem.mk (qn nsSa "Value") [] none
      [Elem.mk (qn NS_ORIGINAL_METADATA "OriginalMetadata") [] none
        [Elem.mk (qn NS_ORIGINAL_METADATA "Key") [] (some key) [],
         Elem.mk (qn NS_ORIGINAL_METADATA "Value") [] (some value) []]]]), freshId)

/-- Consuming the iterator as get_original_metadata_value does: the value of
the first entry whose key matches, the default at exhaustion, and the
iterator crash if one is hit first. -/
def scanOM : List OMEvent → String → Option String → Except String (Option String)
  | [], _, dflt => .ok dflt
  | .crash :: _, _, _ => .error "AttributeError: Element object has no attribute toxml"
  | .entry _ k v :: rest, key, dflt =>
      if k == key then .ok (some v) else scanOM rest key dflt

/-- StructuredAnnotations.get_original_metadata_value. -/
def get_original_metadata_value (nsSa : String) (sa : Elem) (key : String)
    (dflt : Option String) : Except String (Option String) :=
  scanOM (iter_original_metadata nsSa sa) key dflt

theorem annListEvents_append (nsSa : String) (l1 l2 : List Elem) :
    annListEvents nsSa (l1 ++ l2) = annListEvents nsSa l1 ++ annListEvents nsSa l2 := by
  induction l1 with
  | nil => rfl
  | cons a rest ih => simp [annListEvents, ih]

theorem iter_add (nsSa : String) (sa : Elem) (key value freshId : String) :
    iter_original_metadata nsSa (add_original_metadata nsSa sa key value freshId).1
      = iter_original_metadata nsSa sa ++ [.entry (some (.s freshId)) key value] := by
  unfold iter_original_metadata add_original_metadata
  cases sa with
  | mk t a x cs =>
      simp only [appendChild, Elem.children, findallL, List.filter_append]
      rw [annListEvents_append]
      congr 1
      have hkv : ¬ (qn NS_ORIGINAL_METADATA "Key" = qn NS_ORIGINAL_METADATA "Value") := by
        decide
      simp [List.filter, Elem.tag, annListEvents, annEvents, findallL,
        valListEvents, valEvents, omListEvents, omOfNode, attrGet, Elem.children,
        Elem.attrs, List.find?, findL, Elem.txt, hkv]

theorem scanOM_append (s1 s2 : List OMEvent) (key : String) (dflt : Option String) :
    scanOM (s1 ++ s2) key dflt =
      match scanOM s1 key none with
      | .error e => .error e
      | .ok (some v) => .ok (some v)
      | .ok none => scanOM s2 key dflt := by
  induction s1 with
  | nil => rfl
  | cons ev rest ih =>
      cases ev with
      | crash => rfl
      | entry i k v =>
          cases hk : (k == key) with
          | true => simp [scanOM, hk]
          | false => simp [scanOM, hk, ih]

theorem scanOM_default (s : List OMEvent) (key : String) (dflt : Option String)
    (h : scanOM s key none = .ok none) : scanOM s key dflt = .ok dflt := by
  induction s with
  | nil => rfl
  | cons ev rest ih =>
      cases ev with
      | crash => exact absurd h (by simp [scanOM])
      | entry i k v =>
          cases hk : (k == key) with
          | true =>
              rw [scanOM, if_pos hk] at h
              exact absurd h (by simp)
          | false =>
              rw [scanOM, if_neg (by simp [hk])] at h ⊢
              exact ih h

/-- C8: adding a key/value pair and reading the key back returns that value
when the key was previously unmatched; with a duplicate key the first entry
in document order wins over the newly appended one; and a lookup whose key
matches nothing returns the supplied default. -/
theorem c8_original_metadata (nsSa : String) (sa : Elem) (key value freshId : String)
    (dflt : Option String) :
    (get_original_metadata_value nsSa sa key none = .ok none →
        get_original_metadata_value nsSa
          (add_original_metadata nsSa sa key value freshId).1 key dflt
          = .ok (some value)) ∧
    (∀ w, get_original_metadata_value nsSa sa key none = .ok (some w) →
        get_original_metadata_value nsSa
          (add_original_metadata nsSa sa key value freshId).1 key dflt
          = .ok (some w)) ∧
    (get_original_metadata_value nsSa sa key none = .ok none →
        get_original_metadata_value nsSa sa key dflt = .ok dflt) := by
  refine ⟨?_, ?_, ?_⟩
  · intro h
    unfold get_original_metadata_value
    rw [iter_add, scanOM_append]
    unfold get_original_metadata_value at h
    rw [h]
    simp [scanOM]
  · intro w h
    unfold get_original_metadata_value
    rw [iter_add, scanOM_append]
    unfold get_original_metadata_value at h
    rw [h]
  · intro h
    exact scanOM_default _ key dflt h

/-- The structured-annotations namespace the default template resolves: the
template carries a stray trailing s in its sa namespace declaration. -/
def ns_sa_default : String := "http://www.openmicroscopy.org/Schemas/sa/2016-06s"

def c8EmptySA : Elem :=
  Elem.mk (qn ns_sa_default "StructuredAnnotations") [] none []

/-- Witness for c8_original_metadata: on an empty container, adding Make =
Zeiss and reading Make returns Zeiss, and reading an absent key returns the
supplied default. -/
theorem c8_original_metadata_witness :
    get_original_metadata_value ns_sa_default
        (add_original_metadata ns_sa_default c8EmptySA "Make" "Zeiss" "id-0").1
        "Make" (some "fallback") = .ok (some "Zeiss") ∧
    get_original_metadata_value ns_sa_default c8EmptySA "Make" (some "fallback")
      = .ok (some "fallback") :=
  ⟨(c8_original_metadata ns_sa_default c8EmptySA "Make" "Zeiss" "id-0"
      (some "fallback")).1 (by rfl),
   (c8_original_metadata ns_sa_default c8EmptySA "Make" "Zeiss" "id-0"
      (some "fallback")).2.2 (by rfl)⟩

/-- PlatesDucktype.newPlate: attach a Plate node and set its ID and Name.
The plate_id default is the str(uuid.uuid4()) computed once when the
function object was created, so it is a fixed module-level string shared by
every call that omits the argument, modelled by the defaultId parameter. -/
def newPlate (nsSpw : String) (root : Elem) (name : String)
    (plateIdArg : Option String) (defaultId : String) : Elem × Elem :=
  let pid := plateIdArg.getD defaultId
  let node := Elem.mk (qn nsSpw "Plate") [("ID", .s pid), ("Name", .s name)] none []
  (appendChild root node, node)

/-- WellsDucktype.new: attach a Well node with Row, Column and ID.  The
well_id default is likewise evaluated once at function definition. -/
def wells_new (nsSpw : String) (plate : Elem) (row col : Int)
    (wellIdArg : Option String) (defaultId : String) : Elem × Elem :=
  let wid := wellIdArg.getD defaultId
  let node := Elem.mk (qn nsSpw "Well")
    [("Row", .s (pyStr row)), ("Column", .s (pyStr col)), ("ID", .s wid)] none []
  (appendChild plate node, node)

/-- The Index attributes of the existing WellSample children, as the list
comprehension in WellSampleDucktype.new reads them; a malformed Index
attribute propagates its ValueError. -/
def sampleIndices (nsSpw : String) (well : Elem) : Except String (List (Option Int)) :=
  (findallL (qn nsSpw "WellSample") well.children).foldrM
    (fun s acc => match get_int_attr s "Index" with
      | .ok v => .ok (v :: acc)
      | .error e => .error e) []

/-- The reduce(max, indices, -1) seed: a sample without an Index attribute
makes max compare an int with None, a TypeError. -/
def foldMaxIdx : List (Option Int) → Int → Except String Int
  | [], acc => .ok acc
  | some i :: rest, acc => foldMaxIdx rest (max acc i)
  | none :: _, _ => .error "TypeError: int does not compare with NoneType"

/-- WellSampleDucktype.new: when no index is given, one past the maximum
existing Index (seeded with -1); the wellsample_id default is again a
single value fixed at function definition.  The Python method returns None,
but the attached node (returned here) carries the assigned attributes. -/
def wellsample_new (nsSpw : String) (well : Elem) (wsIdArg : Option String)
    (indexArg : Option Int) (defaultId : String) : Except String (Elem × Elem) := do
  let idx ← match indexArg with
    | some i => pure i
    | none => do
        let idxs ← sampleIndices nsSpw well
        let m ← foldMaxIdx idxs (-1)
        pure (m + 1)
  let wid := wsIdArg.getD defaultId
  let node := Elem.mk (qn nsSpw "WellSample")
    [("ID", .s wid), ("Index", .s (pyStr idx))] none []
  pure (appendChild well node, node)

/-- The ID attribute of the entity a creation call returned, when it
returned one. -/
def exIdOf (r : Except String (Elem × Elem)) : Option AVal :=
  match r with
  | .ok p => attrGet p.2 "ID"
  | .error _ => none

/-- The mutated parent a creation call returned, when it returned one. -/
def exRootOf (r : Except String (Elem × Elem)) (fallback : Elem) : Elem :=
  match r with
  | .ok p => p.1
  | .error _ => fallback

def c9Root : Elem := Elem.mk (qn ns_spw_default "OME") [] none []

/-- C9: the creation calls do not generate fresh identifiers per call; the
default is evaluated once, so two calls that omit the identifier argument
assign the identical ID to both new entities, for plates, wells and well
samples alike. -/
theorem c9_shared_default_id :
    (attrGet (newPlate ns_spw_default c9Root "P1" none "fixed-uuid-0").2 "ID"
      = some (.s "fixed-uuid-0") ∧
     attrGet (newPlate ns_spw_default
        (newPlate ns_spw_default c9Root "P1" none "fixed-uuid-0").1
        "P2" none "fixed-uuid-0").2 "ID"
      = some (.s "fixed-uuid-0")) ∧
    (attrGet (wells_new ns_spw_default c6Plate 0 0 none "fixed-uuid-1").2 "ID"
      = some (.s "fixed-uuid-1") ∧
     attrGet (wells_new ns_spw_default
        (wells_new ns_spw_default c6Plate 0 0 none "fixed-uuid-1").1
        0 1 none "fixed-uuid-1").2 "ID"
      = some (.s "fixed-uuid-1")) ∧
    (exIdOf (wellsample_new ns_spw_default c6WellB none none "fixed-uuid-2")
      = some (.s "fixed-uuid-2") ∧
     exIdOf (wellsample_new ns_spw_default
        (exRootOf (wellsample_new ns_spw_default c6WellB none none "fixed-uuid-2") c6WellB)
        none none "fixed-uuid-2")
      = some (.s "fixed-uuid-2")) := by
  refine ⟨⟨rfl, rfl⟩, ⟨rfl, rfl⟩, ⟨rfl, rfl⟩⟩

/-- OMEXML.structured_annotations: find the StructuredAnnotations child,
attaching a fresh empty one to the root when absent, and wrap it. -/
def structured_annotations (nsSa : String) (root : Elem) : Elem × Elem :=
  match findL (qn nsSa "StructuredAnnotations") root.children with
  | some n => (root, n)
  | none =>
      (appendChild root (Elem.mk (qn nsSa "StructuredAnnotations") [] none []),
       Elem.mk (qn nsSa "StructuredAnnotations") [] none [])

/-- C10: reading the structured_annotations property on a root without a
StructuredAnnotations child attaches a new one (the returned tree differs
from the input), while on a root that already has one the tree is returned
unchanged. -/
theorem c10_structured_annotations_get (nsSa : String) (root : Elem) :
    (findL (qn nsSa "StructuredAnnotations") root.children = none →
        (structured_annotations nsSa root).1.children
          = root.children ++ [Elem.mk (qn nsSa "StructuredAnnotations") [] none []] ∧
        (structured_annotations nsSa root).1 ≠ root) ∧
    (∀ n, findL (qn nsSa "StructuredAnnotations") root.children = some n →
        structured_annotations nsSa root = (root, n)) := by
  constructor
  · intro h
    unfold structured_annotations
    rw [h]
    refine ⟨?_, ?_⟩
    · cases root with
      | mk t a x cs => rfl
    · intro heq
      have heq2 : appendChild root
          (Elem.mk (qn nsSa "StructuredAnnotations") [] none []) = root := heq
      cases root with
      | mk t a x cs =>
          have hlen := congrArg (fun e => e.children.length) heq2
          simp [appendChild, Elem.children] at hlen
  · intro n h
    unfold structured_annotations
    rw [h]

/-- Witness for c10_structured_annotations_get: on a root without the
child the access grows the child list; with the child present the tree is
untouched. -/
theorem c10_structured_annotations_get_witness :
    (structured_annotations ns_sa_default
        (Elem.mk (qn ns_ome_default "OME") [] none [])).1.children
      = [Elem.mk (qn ns_sa_default "StructuredAnnotations") [] none []] ∧
    structured_annotations ns_sa_default
        (Elem.mk (qn ns_ome_default "OME") [] none [c8EmptySA])
      = (Elem.mk (qn ns_ome_default "OME") [] none [c8EmptySA], c8EmptySA) :=
  ⟨((c10_structured_annotations_get ns_sa_default
      (Elem.mk (qn ns_ome_default "OME") [] none [])).1 (by rfl)).1,
   (c10_structured_annotations_get ns_sa_default
      (Elem.mk (qn ns_ome_default "OME") [] none [c8EmptySA])).2 c8EmptySA (by rfl)⟩
